import Mathlib

/-!
Shallow embedding of the client-side feed synchronization core of the
SkillSphere social feed page (frontend `Home` component). The data model
and each handler are translated directly from the source: JavaScript
optional fields (`x?.y`) become `Option`, JavaScript truthiness of a
string (`s && ...`) becomes a `none`/empty-string test, awaited remote
calls become an explicit `Except` outcome parameter, and every handler
additionally reports whether the remote service was actually contacted.
-/

namespace SkillShare

/-- A JavaScript identifier value as it arrives in a payload: a number,
a string, or `undefined`. Identity comparison in the edit-authorization
guard is done after `String(...)` conversion (stable identifier
equality); elsewhere `===` is strict (structural) equality. -/
inductive Ident where
  | num (n : Int)
  | str (s : String)
  | undef
deriving DecidableEq, Repr

/-- `String(x)` conversion of an identifier value, as JavaScript does it. -/
def identStr : Ident → String
  | .num n => toString n
  | .str s => s
  | .undef => "undefined"

/-- A reaction entry on a post: `{userId, reactionType}` with
`reactionType ∈ {"LIKE", "LOVE"}` expected but not enforced. -/
structure Reaction where
  userId : Ident
  reactionType : String
deriving DecidableEq, Repr

/-- A user reference as embedded in posts and comments:
`{id, username, followers}`; `username` and `followers` may be absent. -/
structure UserRef where
  id : Ident
  username : Option String
  followers : Option (List Ident)
deriving DecidableEq, Repr

/-- A comment: `{id, text, user, createdAt}`; the author reference is
accessed directly (`comment.user.id`) by the authorization guard. -/
structure Comment where
  id : Nat
  text : String
  user : UserRef
  createdAt : Nat
deriving DecidableEq, Repr

/-- A post as held by the Feed Store. `title`, `content`, `tags`,
`images`, `user` and `reactions` are accessed through optional chaining
or truthiness tests in the source, so they are `Option`; `comments` is
accessed directly by the delete handler. -/
structure Post where
  id : Nat
  title : Option String
  content : Option String
  tags : Option String
  images : Option String
  user : Option UserRef
  createdAt : Nat
  comments : List Comment
  reactions : Option (List Reaction)
deriving DecidableEq, Repr

/-- The authenticated session user held by the auth context:
an identity and a bearer token (possibly absent). -/
structure User where
  id : Ident
  token : Option String
deriving DecidableEq, Repr

/-- Outcome of the follow remote call: the followed user's updated
record, of which only `followers` is read. -/
structure FollowResult where
  followers : Option (List Ident)
deriving DecidableEq, Repr

/-- A failed remote call as seen by a `catch` block: either the error
carries a response with an HTTP status (`err.response.status`), or it
has no response object (e.g. a locally thrown `Error`). -/
inductive JsError where
  | withStatus (status : Nat)
  | noResponse
deriving DecidableEq, Repr

/-- The `err.response?.status === 401` test shared by every catch block. -/
def is401 : JsError → Bool
  | .withStatus s => s == 401
  | .noResponse => false

/- ---------------------------------------------------------------
   View Projector: tag/search filtering and reaction projections
   --------------------------------------------------------------- -/

/-- Byte-level prefix test on character lists, matching the start of a
JavaScript `String.prototype.includes` scan. -/
def listPrefixB : List Char → List Char → Bool
  | [], _ => true
  | _ :: _, [] => false
  | a :: as, b :: bs => a == b && listPrefixB as bs

/-- Contiguous-sublist test on character lists: `q` occurs somewhere in
`s` (the empty `q` always occurs). -/
def listInfixB (q : List Char) : List Char → Bool
  | [] => listPrefixB q []
  | b :: bs => listPrefixB q (b :: bs) || listInfixB q bs

/-- `s.includes(q)` for strings: `q` is a contiguous substring of `s`. -/
def strIncludes (s q : String) : Bool := listInfixB q.data s.data

/-- `s.trim()` as JavaScript performs it: strip leading and trailing
whitespace characters. -/
def jsTrim (s : String) : String :=
  ⟨((s.data.dropWhile Char.isWhitespace).reverse.dropWhile Char.isWhitespace).reverse⟩

/-- `s.toLowerCase()`: lower-case every character. -/
def jsToLower (s : String) : String :=
  ⟨s.data.map Char.toLower⟩

/-- Accumulating splitter behind `s.split(",")`. -/
def splitCommaAux : List Char → List Char → List (List Char)
  | acc, [] => [acc.reverse]
  | acc, c :: rest =>
    if c = ',' then acc.reverse :: splitCommaAux [] rest
    else splitCommaAux (c :: acc) rest

/-- `s.split(",")` as JavaScript performs it (the empty string yields
`[""]`, and adjacent separators yield empty fragments). -/
def jsSplitComma (s : String) : List String :=
  (splitCommaAux [] s.data).map (fun cs => ⟨cs⟩)

/-- The tag predicate of the filtering effect:
`post.tags && post.tags.split(",").map(t => t.trim()).includes(selectedTag)`.
An absent or empty `tags` string is falsy, so it never matches. -/
def tagMatch (selectedTag : String) (p : Post) : Bool :=
  match p.tags with
  | none => false
  | some t =>
    if t = "" then false
    else ((jsSplitComma t).map jsTrim).any (fun tg => decide (tg = selectedTag))

/-- `o?.toLowerCase().includes(q)` coerced to boolean: `false` when the
field is absent. -/
def optLowerIncludes (o : Option String) (q : String) : Bool :=
  match o with
  | none => false
  | some s => strIncludes (jsToLower s) q

/-- The search predicate of the filtering effect, applied with the
already lower-cased and trimmed query:
`post.title?.toLowerCase().includes(query) || post.content?.toLowerCase().includes(query)`. -/
def searchMatchQ (query : String) (p : Post) : Bool :=
  optLowerIncludes p.title query || optLowerIncludes p.content query

/-- The filtering effect of the `Home` component: starting from the full
`posts` collection, first restrict by tag when `selectedTag ≠ "All"`,
then restrict by the lower-cased trimmed search query when the trimmed
query is non-empty. -/
def applyFilter (posts : List Post) (selectedTag searchQuery : String) : List Post :=
  let result := if selectedTag ≠ "All" then posts.filter (fun p => tagMatch selectedTag p) else posts
  if jsTrim searchQuery ≠ "" then
    result.filter (fun p => searchMatchQ (jsTrim (jsToLower searchQuery)) p)
  else result

/-- `user?.id`: the current user's identifier, or `undefined`. -/
def currentUserId : Option User → Ident
  | none => .undef
  | some u => u.id

/-- `hasUserReacted(post, type)`:
`post.reactions?.some(r => r.userId === user?.id && r.reactionType === type)`
coerced to boolean (an absent `reactions` yields `undefined`, i.e. falsy). -/
def hasUserReacted (user : Option User) (post : Post) (ty : String) : Bool :=
  match post.reactions with
  | none => false
  | some rs => rs.any (fun r => decide (r.userId = currentUserId user) && decide (r.reactionType = ty))

/-- `getReactionCount(post, type)`:
`post.reactions?.filter(r => r.reactionType === type).length || 0`. -/
def getReactionCount (post : Post) (ty : String) : Nat :=
  match post.reactions with
  | none => 0
  | some rs => (rs.filter (fun r => decide (r.reactionType = ty))).length

/- ---------------------------------------------------------------
   Component state and handlers
   --------------------------------------------------------------- -/

/-- The state of the `Home` component together with the auth-context
fields it reads and writes (`user`, `showAuthForm`, `isLogin`) and the
user-visible `error` message. Presentation-only fields that no handler
logic depends on (theme, share panel, copied flag) are omitted. -/
structure HomeState where
  posts : List Post
  filteredPosts : List Post
  loading : Bool
  newComments : List (Nat × String)
  editingCommentId : Option Nat
  editedCommentText : String
  showReactions : Option Nat
  selectedTag : String
  searchQuery : String
  user : Option User
  showAuthForm : Bool
  isLogin : Bool
  errorMsg : String
deriving DecidableEq, Repr

/-- Modelled from the spec: `logout()` lives in the auth context, which
is not part of the given source. Per §4.1/§3 of the specification the
session is destroyed on logout, so the current user becomes absent. -/
def logout (st : HomeState) : HomeState :=
  { st with user := none }

/-- The session-expired message set by every 401 branch. -/
def sessionExpiredMsg : String := "Session expired. Please log in again."

/-- The catch block shared by the comment, reaction and update handlers:
on a 401-class error log out, open the login form, and set the
session-expired message; on any other error do nothing to the state. -/
def catch401 (st : HomeState) (e : JsError) : HomeState :=
  if is401 e then
    { logout st with showAuthForm := true, isLogin := true, errorMsg := sessionExpiredMsg }
  else st

/-- Feed Store patch used after a successful mutation:
`posts.map(p => p.id === postId ? updatedPost : p)`. -/
def patchPosts (posts : List Post) (postId : Nat) (updatedPost : Post) : List Post :=
  posts.map (fun p => if p.id = postId then updatedPost else p)

/-- `newComments[postId]` lookup on the draft-comment object. -/
def lookupDraft (m : List (Nat × String)) (k : Nat) : Option String :=
  (m.find? (fun kv => kv.1 == k)).map (fun kv => kv.2)

/-- `{...newComments, [postId]: v}`: set one key of the draft object. -/
def setDraft (m : List (Nat × String)) (k : Nat) (v : String) : List (Nat × String) :=
  (k, v) :: m.filter (fun kv => kv.1 ≠ k)

/-- `user?.token` truthiness: the token is usable only when the user is
present and the token is present and non-empty. -/
def tokenOf : Option User → Option String
  | none => none
  | some u =>
    match u.token with
    | none => none
    | some t => if t = "" then none else some t

/-- What `fetchPosts` threw into its catch block: the locally raised
`Error("No authentication token found. Please log in.")` (the
AuthRequired failure) or a failed remote call. -/
inductive FetchThrown where
  | authTokenMissing
  | remoteFailure (e : JsError)
deriving DecidableEq, Repr

/-- Whether a thrown fetch failure satisfies `err.response?.status === 401`
(the locally thrown AuthRequired error has no response object). -/
def fetchIs401 : FetchThrown → Bool
  | .authTokenMissing => false
  | .remoteFailure e => is401 e

/-- The catch block of `fetchPosts`: 401 → logout, open login form,
session-expired message; otherwise the load-failure message. -/
def fetchCatch (st : HomeState) (t : FetchThrown) : HomeState :=
  if fetchIs401 t then
    { logout st with showAuthForm := true, isLogin := true, errorMsg := sessionExpiredMsg }
  else
    { st with errorMsg := "Failed to load posts. Please try again later." }

/-- `fetchPosts`: sets loading, requires a truthy `user?.token` (else the
AuthRequired error is thrown and caught locally without any remote
call), on success replaces both `posts` and `filteredPosts` with the
fetched sequence, and finally clears loading. Returns the new state,
whether the remote service was contacted, and what (if anything) was
thrown. -/
def fetchPosts (st : HomeState) (remote : Except JsError (List Post)) :
    HomeState × Bool × Option FetchThrown :=
  let st0 := { st with loading := true }
  match tokenOf st0.user with
  | none =>
    ({ fetchCatch st0 .authTokenMissing with loading := false }, false, some .authTokenMissing)
  | some _ =>
    match remote with
    | .ok postsData =>
      ({ st0 with posts := postsData, filteredPosts := postsData, loading := false }, true, none)
    | .error e =>
      ({ fetchCatch st0 (.remoteFailure e) with loading := false }, true, some (.remoteFailure e))

/-- The `useEffect` keyed on `user`: with a user present it runs
`fetchPosts`; with no user it clears both `posts` and `filteredPosts`. -/
def runUserEffect (st : HomeState) (remote : Except JsError (List Post)) :
    HomeState × Bool × Option FetchThrown :=
  match st.user with
  | some _ => fetchPosts st remote
  | none => ({ st with posts := [], filteredPosts := [] }, false, none)

/-- `handleCommentSubmit(postId)`: returns early (no remote call) when
there is no user or the draft text for the post is absent or
whitespace-only; on success patches the returned post into the store and
clears the draft; on failure runs the shared catch block. -/
def handleCommentSubmit (st : HomeState) (postId : Nat)
    (remote : Except JsError Post) : HomeState × Bool :=
  match st.user with
  | none => (st, false)
  | some _ =>
    match lookupDraft st.newComments postId with
    | none => (st, false)
    | some txt =>
      if jsTrim txt = "" then (st, false)
      else
        match remote with
        | .ok updatedPost =>
          ({ st with posts := patchPosts st.posts postId updatedPost,
                     newComments := setDraft st.newComments postId "" }, true)
        | .error e => (catch401 st e, true)

/-- `startEditingComment(comment)`: local authorization guard — returns
(state unchanged) when there is no user or `String(user.id) !==
String(comment.user.id)`; otherwise records the comment as being edited
and seeds the edit text. -/
def startEditingComment (st : HomeState) (comment : Comment) : HomeState :=
  match st.user with
  | none => st
  | some u =>
    if identStr u.id ≠ identStr comment.user.id then st
    else { st with editingCommentId := some comment.id, editedCommentText := comment.text }

/-- `handleCommentUpdate(postId, commentId)`: returns early (no remote
call) when there is no user or the edited text is whitespace-only; on
success patches the returned post and clears the editing state; on
failure runs the shared catch block. -/
def handleCommentUpdate (st : HomeState) (postId commentId : Nat)
    (remote : Except JsError Post) : HomeState × Bool :=
  match st.user with
  | none => (st, false)
  | some _ =>
    if jsTrim st.editedCommentText = "" then (st, false)
    else
      match remote with
      | .ok updatedPost =>
        ({ st with posts := patchPosts st.posts postId updatedPost,
                   editingCommentId := none, editedCommentText := "" }, true)
      | .error e => (catch401 st e, true)

/-- The edit-comment flow as wired in the page: the pencil button calls
`startEditingComment`, and the Update button (rendered only while
`editingCommentId === comment.id`) then calls `handleCommentUpdate`
on that comment. -/
def editCommentFlow (st : HomeState) (postId : Nat) (comment : Comment)
    (remote : Except JsError Post) : HomeState × Bool :=
  let st1 := startEditingComment st comment
  if st1.editingCommentId = some comment.id then
    handleCommentUpdate st1 postId comment.id remote
  else (st1, false)

/-- `handleCommentDelete(postId, commentId)`: requires a user; on success
removes the comment from the matching post's comment sequence and clears
the editing state; on failure runs the shared catch block. -/
def handleCommentDelete (st : HomeState) (postId commentId : Nat)
    (remote : Except JsError Unit) : HomeState × Bool :=
  match st.user with
  | none => (st, false)
  | some _ =>
    match remote with
    | .ok _ =>
      ({ st with
           posts := st.posts.map (fun p =>
             if p.id = postId then
               { p with comments := p.comments.filter (fun c => c.id ≠ commentId) }
             else p),
           editingCommentId := none }, true)
    | .error e => (catch401 st e, true)

/-- `handleReaction(postId, reactionType)`: requires a user (returning
before the reaction popup is closed); on success patches the returned
post; on failure runs the shared catch block; in either case the
reaction popup is then closed. -/
def handleReaction (st : HomeState) (postId : Nat) (reactionType : String)
    (remote : Except JsError Post) : HomeState × Bool :=
  match st.user with
  | none => (st, false)
  | some _ =>
    let st1 :=
      match remote with
      | .ok updatedPost => { st with posts := patchPosts st.posts postId updatedPost }
      | .error e => catch401 st e
    ({ st1 with showReactions := none }, true)

/-- `{...p.user, followers: updatedUser.followers}`: spread of a possibly
absent user reference with the followers field overwritten. -/
def spreadUserFollowers (ou : Option UserRef) (fl : Option (List Ident)) : Option UserRef :=
  match ou with
  | some u => some { u with followers := fl }
  | none => some { id := .undef, username := none, followers := fl }

/-- `handleFollowPost(postId, userId)`: with no user it opens the login
form instead of calling the remote service; on success it rewrites the
matching post's author followers from the returned record; on a 401 it
runs the logout/login-form branch, otherwise it sets the follow-failure
message. -/
def handleFollowPost (st : HomeState) (postId : Nat) (targetUserId : Ident)
    (remote : Except JsError FollowResult) : HomeState × Bool :=
  match st.user with
  | none => ({ st with showAuthForm := true, isLogin := true }, false)
  | some _ =>
    match remote with
    | .ok updatedUser =>
      ({ st with posts := st.posts.map (fun p =>
           if p.id = postId then
             { p with user := spreadUserFollowers p.user updatedUser.followers }
           else p) }, true)
    | .error e =>
      ((if is401 e then
          { logout st with showAuthForm := true, isLogin := true, errorMsg := sessionExpiredMsg }
        else { st with errorMsg := "Failed to follow user. Please try again." }), true)

/- ---------------------------------------------------------------
   Sample data for concrete evaluation
   --------------------------------------------------------------- -/

/-- A sample comment authored by user 10. -/
def sampleComment : Comment :=
  { id := 100, text := "nice", user := { id := .num 10, username := some "alice", followers := some [] }, createdAt := 5 }

/-- A sample post tagged "Art, Music". -/
def samplePost1 : Post :=
  { id := 1, title := some "Art Post", content := some "painting basics",
    tags := some "Art, Music", images := none,
    user := some { id := .num 10, username := some "alice", followers := some [] },
    createdAt := 3, comments := [sampleComment],
    reactions := some [{ userId := .num 11, reactionType := "LIKE" }] }

/-- A sample post tagged "Cooking". -/
def samplePost2 : Post :=
  { id := 2, title := some "Cooking", content := some "pasta", tags := some "Cooking",
    images := none, user := none, createdAt := 4, comments := [], reactions := none }

/-- A sample post with no tags string at all. -/
def samplePost3 : Post :=
  { id := 3, title := some "Untagged", content := some "misc", tags := none,
    images := none, user := none, createdAt := 6, comments := [], reactions := none }

/-- A sample component state: user 11 logged in with a token, a
non-blank draft for post 1 and a non-blank edit text. -/
def sampleState : HomeState :=
  { posts := [samplePost1, samplePost2], filteredPosts := [samplePost1, samplePost2],
    loading := false, newComments := [(1, "hello")], editingCommentId := none,
    editedCommentText := "fixed text", showReactions := none, selectedTag := "All",
    searchQuery := "", user := some { id := .num 11, token := some "tok" },
    showAuthForm := false, isLogin := false, errorMsg := "" }

/-- Default post used with `List.getD` when indexing post sequences. -/
def defaultPost : Post :=
  { id := 0, title := none, content := none, tags := none, images := none,
    user := none, createdAt := 0, comments := [], reactions := none }

/- ---------------------------------------------------------------
   Theorems
   --------------------------------------------------------------- -/

/-- Claim C7: for every post sequence, the View Projector's filter with
`selectedTag = "All"` and `searchQuery = ""` is the identity. -/
theorem filter_identity_on_all_and_empty_query (posts : List Post) :
    applyFilter posts "All" "" = posts := rfl

/-- Claim C6: for a selected tag other than "All", the filtered output
is exactly the posts of the full unfiltered collection satisfying the
tag predicate AND (when the trimmed query is non-empty) the
case-insensitive title/content search predicate. -/
theorem filter_is_conjunction_over_full_collection (posts : List Post) (T Q : String)
    (hT : T ≠ "All") :
    applyFilter posts T Q =
      posts.filter (fun p => tagMatch T p &&
        (if jsTrim Q ≠ "" then searchMatchQ (jsTrim (jsToLower Q)) p else true)) := by
  simp only [applyFilter]
  rw [if_pos hT]
  by_cases hQ : jsTrim Q ≠ ""
  · rw [if_pos hQ, List.filter_filter]
    congr 1
    funext p
    simp [hQ, Bool.and_comm]
  · rw [if_neg hQ]
    congr 1
    funext p
    simp [hQ]

/-- Witness for C6 at the spec's concrete scenario: posts tagged
"Art, Music" and "Cooking", selected tag "Music". -/
theorem filter_is_conjunction_over_full_collection_witness :
    applyFilter [samplePost1, samplePost2] "Music" "" =
      List.filter (fun p => tagMatch "Music" p &&
        (if jsTrim "" ≠ "" then searchMatchQ (jsTrim (jsToLower "")) p else true))
        [samplePost1, samplePost2] ∧
    applyFilter [samplePost1, samplePost2] "Music" "" = [samplePost1] :=
  ⟨filter_is_conjunction_over_full_collection [samplePost1, samplePost2] "Music" "" (by decide),
   by decide⟩

/-- Claim C10: a post whose `tags` field is absent or empty is excluded
by every tag filter other than "All" (whatever the search query), and is
still included under "All" whenever the search stage passes. -/
theorem missing_tags_excluded_unless_all (posts : List Post) (p : Post) (T Q : String)
    (hmem : p ∈ posts) (htags : p.tags = none ∨ p.tags = some "") :
    (T ≠ "All" → p ∉ applyFilter posts T Q) ∧
    ((jsTrim Q = "" ∨ searchMatchQ (jsTrim (jsToLower Q)) p = true) →
      p ∈ applyFilter posts "All" Q) := by
  have htm : ∀ T₀ : String, tagMatch T₀ p = false := by
    intro T₀
    rcases htags with h | h <;> simp [tagMatch, h]
  constructor
  · intro hT hcontra
    simp only [applyFilter, if_pos hT] at hcontra
    by_cases hQ : jsTrim Q ≠ ""
    · rw [if_pos hQ] at hcontra
      have h1 := (List.mem_filter.mp hcontra).1
      have h2 := (List.mem_filter.mp h1).2
      rw [htm T] at h2
      exact Bool.false_ne_true h2
    · rw [if_neg hQ] at hcontra
      have h2 := (List.mem_filter.mp hcontra).2
      rw [htm T] at h2
      exact Bool.false_ne_true h2
  · intro hq
    have hAll : ¬ ("All" : String) ≠ "All" := by simp
    simp only [applyFilter, if_neg hAll]
    by_cases hQ : jsTrim Q ≠ ""
    · rw [if_pos hQ]
      rcases hq with hq | hq
      · exact absurd hq hQ
      · exact List.mem_filter.mpr ⟨hmem, hq⟩
    · rw [if_neg hQ]
      exact hmem

/-- Witness for C10: the untagged sample post is excluded when filtering
by "Music" and included when the tag is "All" with an empty query. -/
theorem missing_tags_excluded_unless_all_witness :
    (samplePost3 ∉ applyFilter [samplePost1, samplePost3] "Music" "") ∧
    samplePost3 ∈ applyFilter [samplePost1, samplePost3] "All" "" :=
  have h := missing_tags_excluded_unless_all [samplePost1, samplePost3] samplePost3
    "Music" "" (by decide) (Or.inl rfl)
  ⟨h.1 (by decide), h.2 (Or.inl rfl)⟩

/-- Claim C8: `hasUserReacted` holds exactly when some reaction of the
post carries the user's identifier and the requested reaction type. -/
theorem hasUserReacted_iff_exists_reaction (post : Post) (u : User) (ty : String) :
    hasUserReacted (some u) post ty = true ↔
      ∃ r ∈ post.reactions.getD [], r.userId = u.id ∧ r.reactionType = ty := by
  cases hr : post.reactions with
  | none => simp [hasUserReacted, hr]
  | some rs => simp [hasUserReacted, hr, currentUserId, List.any_eq_true]

/-- Claim C5: `patch(postId, updatedPost)` preserves the length of the
post sequence, replaces every position holding the matching id by the
updated post, and leaves every other position unchanged. -/
theorem patch_replaces_only_matching_post (posts : List Post) (postId : Nat) (up : Post) :
    (patchPosts posts postId up).length = posts.length ∧
    ∀ i, i < posts.length →
      (patchPosts posts postId up).getD i defaultPost =
        (if (posts.getD i defaultPost).id = postId then up
         else posts.getD i defaultPost) := by
  refine ⟨by simp [patchPosts], ?_⟩
  intro i hi
  induction posts generalizing i with
  | nil => simp at hi
  | cons q qs ih =>
    cases i with
    | zero => simp [patchPosts]
    | succ n =>
      simp only [patchPosts, List.map_cons, List.getD_cons_succ]
      exact ih n (by simpa using hi)

/-- Witness for C5: patching post 1 in the sample store replaces
position 0 and leaves position 1 alone. -/
theorem patch_replaces_only_matching_post_witness :
    ((patchPosts [samplePost1, samplePost2] 1 samplePost3).getD 0 defaultPost =
       (if (([samplePost1, samplePost2].getD 0 defaultPost).id = 1) then samplePost3
        else [samplePost1, samplePost2].getD 0 defaultPost)) ∧
    ((patchPosts [samplePost1, samplePost2] 1 samplePost3).getD 1 defaultPost =
       (if (([samplePost1, samplePost2].getD 1 defaultPost).id = 1) then samplePost3
        else [samplePost1, samplePost2].getD 1 defaultPost)) :=
  ⟨(patch_replaces_only_matching_post [samplePost1, samplePost2] 1 samplePost3).2 0 (by decide),
   (patch_replaces_only_matching_post [samplePost1, samplePost2] 1 samplePost3).2 1 (by decide)⟩

/-- The post-401 "logged out" shape required by the spec's failure
policy: session cleared, login flow opened, feed emptied. -/
def clearedState (st : HomeState) : Prop :=
  st.user = none ∧ st.showAuthForm = true ∧ st.isLogin = true ∧ st.posts = []

/-- With no user, the `useEffect` keyed on `user` clears the store, so a
state that has already logged out and opened the login flow reaches the
fully cleared shape. -/
theorem effect_clears_without_user (s : HomeState) (remoteF : Except JsError (List Post))
    (hu : s.user = none) (hf : s.showAuthForm = true) (hl : s.isLogin = true) :
    clearedState (runUserEffect s remoteF).1 := by
  simp [runUserEffect, hu, clearedState, hf, hl]

/-- The shared catch block on a 401-class error logs out and opens the
login flow. -/
theorem catch401_logs_out (st : HomeState) (e : JsError) (h : is401 e = true) :
    (catch401 st e).user = none ∧ (catch401 st e).showAuthForm = true ∧
      (catch401 st e).isLogin = true := by
  simp [catch401, h, logout]

/-- Claim C3: refresh with a session whose token is absent or empty
throws the local AuthRequired error, contacts no remote service, and
leaves the post collection unchanged. -/
theorem refresh_without_token_fails_locally (st : HomeState)
    (remote : Except JsError (List Post))
    (h : ∀ u, st.user = some u → u.token = none ∨ u.token = some "") :
    (fetchPosts st remote).2.1 = false ∧
    (fetchPosts st remote).2.2 = some .authTokenMissing ∧
    (fetchPosts st remote).1.posts = st.posts := by
  have htok : tokenOf st.user = none := by
    cases hu : st.user with
    | none => rfl
    | some u => rcases h u hu with ht | ht <;> simp [tokenOf, ht]
  simp [fetchPosts, htok, fetchCatch, fetchIs401]

/-- Witness for C3: refresh on the sample state with an empty token
fails locally with the AuthRequired error and keeps the posts. -/
theorem refresh_without_token_fails_locally_witness :
    (fetchPosts { sampleState with user := some { id := .num 11, token := some "" } }
        (.ok [samplePost3])).2.1 = false ∧
    (fetchPosts { sampleState with user := some { id := .num 11, token := some "" } }
        (.ok [samplePost3])).2.2 = some .authTokenMissing ∧
    (fetchPosts { sampleState with user := some { id := .num 11, token := some "" } }
        (.ok [samplePost3])).1.posts =
      ({ sampleState with user := some { id := .num 11, token := some "" } } : HomeState).posts :=
  refresh_without_token_fails_locally _ _ (by intro u hu; cases hu; exact Or.inr rfl)

/-- Claim C9: submitting a comment whose draft text is absent or
whitespace-only performs no remote call and leaves the whole state (in
particular the post collection) unchanged. -/
theorem whitespace_comment_no_call_no_change (st : HomeState) (postId : Nat)
    (remote : Except JsError Post)
    (h : ∀ txt, lookupDraft st.newComments postId = some txt → jsTrim txt = "") :
    handleCommentSubmit st postId remote = (st, false) := by
  cases hu : st.user with
  | none => simp [handleCommentSubmit, hu]
  | some u =>
    cases hd : lookupDraft st.newComments postId with
    | none => simp [handleCommentSubmit, hu, hd]
    | some txt => simp [handleCommentSubmit, hu, hd, h txt hd]

/-- Witness for C9: a whitespace-only draft for post 1 is dropped
without any call and without touching the state. -/
theorem whitespace_comment_no_call_no_change_witness :
    handleCommentSubmit { sampleState with newComments := [(1, "  ")] } 1
        (.error .noResponse) =
      ({ sampleState with newComments := [(1, "  ")] }, false) :=
  whitespace_comment_no_call_no_change _ 1 _
    (by intro txt h; simp [lookupDraft] at h; simp [← h]; rfl)

/-- Claim C2: an edit attempt by a caller whose stable identifier
(`String(user.id)`) differs from the comment author's is rejected by the
local guard: no remote call happens and the state is unchanged. -/
theorem editComment_rejected_for_non_author (st : HomeState) (postId : Nat)
    (comment : Comment) (remote : Except JsError Post) (u : User)
    (hu : st.user = some u)
    (hid : identStr u.id ≠ identStr comment.user.id)
    (hfresh : st.editingCommentId ≠ some comment.id) :
    editCommentFlow st postId comment remote = (st, false) := by
  have hstart : startEditingComment st comment = st := by
    simp [startEditingComment, hu, hid]
  simp [editCommentFlow, hstart, hfresh]

/-- Witness for C2: user 11 attempting to edit a comment authored by
user 10 is rejected locally on the sample state. -/
theorem editComment_rejected_for_non_author_witness :
    editCommentFlow sampleState 1 sampleComment (.ok samplePost3) = (sampleState, false) :=
  editComment_rejected_for_non_author sampleState 1 sampleComment (.ok samplePost3)
    { id := .num 11, token := some "tok" } rfl (by decide) (by decide)

/-- Claim C4: when any of the five mutations fails with a non-401 error,
the post collection is unchanged — no partial or optimistic write
survives the failed call. -/
theorem mutation_non401_failure_leaves_posts (st : HomeState) (e : JsError)
    (h : is401 e = false) (postId commentId : Nat) (ty : String) (targetId : Ident) :
    (handleCommentSubmit st postId (.error e)).1.posts = st.posts ∧
    (handleCommentUpdate st postId commentId (.error e)).1.posts = st.posts ∧
    (handleCommentDelete st postId commentId (.error e)).1.posts = st.posts ∧
    (handleReaction st postId ty (.error e)).1.posts = st.posts ∧
    (handleFollowPost st postId targetId (.error e)).1.posts = st.posts := by
  have hcatch : ∀ s : HomeState, catch401 s e = s := by
    intro s; simp [catch401, h]
  refine ⟨?_, ?_, ?_, ?_, ?_⟩
  · cases hu : st.user with
    | none => simp [handleCommentSubmit, hu]
    | some u =>
      cases hd : lookupDraft st.newComments postId with
      | none => simp [handleCommentSubmit, hu, hd]
      | some txt =>
        by_cases ht : jsTrim txt = ""
        · simp [handleCommentSubmit, hu, hd, ht]
        · simp [handleCommentSubmit, hu, hd, ht, hcatch]
  · cases hu : st.user with
    | none => simp [handleCommentUpdate, hu]
    | some u =>
      by_cases ht : jsTrim st.editedCommentText = ""
      · simp [handleCommentUpdate, hu, ht]
      · simp [handleCommentUpdate, hu, ht, hcatch]
  · cases hu : st.user with
    | none => simp [handleCommentDelete, hu]
    | some u => simp [handleCommentDelete, hu, hcatch]
  · cases hu : st.user with
    | none => simp [handleReaction, hu]
    | some u => simp [handleReaction, hu, hcatch]
  · cases hu : st.user with
    | none => simp [handleFollowPost, hu]
    | some u => simp [handleFollowPost, hu, h]

/-- Witness for C4: a 500-class failure of each mutation on the sample
state leaves the sample posts in place. -/
theorem mutation_non401_failure_leaves_posts_witness :
    (handleCommentSubmit sampleState 1 (.error (.withStatus 500))).1.posts = sampleState.posts ∧
    (handleCommentUpdate sampleState 1 100 (.error (.withStatus 500))).1.posts = sampleState.posts ∧
    (handleCommentDelete sampleState 1 100 (.error (.withStatus 500))).1.posts = sampleState.posts ∧
    (handleReaction sampleState 1 "LIKE" (.error (.withStatus 500))).1.posts = sampleState.posts ∧
    (handleFollowPost sampleState 1 (.num 10) (.error (.withStatus 500))).1.posts = sampleState.posts :=
  mutation_non401_failure_leaves_posts sampleState (.withStatus 500) (by decide) 1 100 "LIKE" (.num 10)

/-- Claim C1: whenever one of the six remote-calling operations actually
contacts the service and the call fails with a 401-class status, the
session is cleared, the login flow is opened, and (through the
user-keyed effect) the post collection is cleared to empty. -/
theorem unauthorized_clears_session_and_feed (st : HomeState) (e : JsError)
    (h401 : is401 e = true) (postId commentId : Nat) (targetId : Ident) (ty : String)
    (remoteF : Except JsError (List Post)) :
    ((fetchPosts st (.error e)).2.1 = true →
      clearedState (runUserEffect (fetchPosts st (.error e)).1 remoteF).1) ∧
    ((handleCommentSubmit st postId (.error e)).2 = true →
      clearedState (runUserEffect (handleCommentSubmit st postId (.error e)).1 remoteF).1) ∧
    ((handleCommentUpdate st postId commentId (.error e)).2 = true →
      clearedState (runUserEffect (handleCommentUpdate st postId commentId (.error e)).1 remoteF).1) ∧
    ((handleCommentDelete st postId commentId (.error e)).2 = true →
      clearedState (runUserEffect (handleCommentDelete st postId commentId (.error e)).1 remoteF).1) ∧
    ((handleReaction st postId ty (.error e)).2 = true →
      clearedState (runUserEffect (handleReaction st postId ty (.error e)).1 remoteF).1) ∧
    ((handleFollowPost st postId targetId (.error e)).2 = true →
      clearedState (runUserEffect (handleFollowPost st postId targetId (.error e)).1 remoteF).1) := by
  have hc := catch401_logs_out st e h401
  refine ⟨?_, ?_, ?_, ?_, ?_, ?_⟩
  · intro hcall
    cases htok : tokenOf st.user with
    | none => simp [fetchPosts, htok] at hcall
    | some t =>
      apply effect_clears_without_user <;>
        simp [fetchPosts, htok, fetchCatch, fetchIs401, h401, logout]
  · intro hcall
    cases hu : st.user with
    | none => simp [handleCommentSubmit, hu] at hcall
    | some u =>
      cases hd : lookupDraft st.newComments postId with
      | none => simp [handleCommentSubmit, hu, hd] at hcall
      | some txt =>
        by_cases ht : jsTrim txt = ""
        · simp [handleCommentSubmit, hu, hd, ht] at hcall
        · have : (handleCommentSubmit st postId (.error e)).1 = catch401 st e := by
            simp [handleCommentSubmit, hu, hd, ht]
          rw [this]
          exact effect_clears_without_user _ _ hc.1 hc.2.1 hc.2.2
  · intro hcall
    cases hu : st.user with
    | none => simp [handleCommentUpdate, hu] at hcall
    | some u =>
      by_cases ht : jsTrim st.editedCommentText = ""
      · simp [handleCommentUpdate, hu, ht] at hcall
      · have : (handleCommentUpdate st postId commentId (.error e)).1 = catch401 st e := by
          simp [handleCommentUpdate, hu, ht]
        rw [this]
        exact effect_clears_without_user _ _ hc.1 hc.2.1 hc.2.2
  · intro hcall
    cases hu : st.user with
    | none => simp [handleCommentDelete, hu] at hcall
    | some u =>
      have : (handleCommentDelete st postId commentId (.error e)).1 = catch401 st e := by
        simp [handleCommentDelete, hu]
      rw [this]
      exact effect_clears_without_user _ _ hc.1 hc.2.1 hc.2.2
  · intro hcall
    cases hu : st.user with
    | none => simp [handleReaction, hu] at hcall
    | some u =>
      have : (handleReaction st postId ty (.error e)).1 =
          { catch401 st e with showReactions := none } := by
        simp [handleReaction, hu]
      rw [this]
      exact effect_clears_without_user _ _ hc.1 hc.2.1 hc.2.2
  · intro hcall
    cases hu : st.user with
    | none => simp [handleFollowPost, hu] at hcall
    | some u =>
      apply effect_clears_without_user <;>
        simp [handleFollowPost, hu, h401, logout]

/-- Witness for C1: a 401 failure of each of the six operations on the
sample state reaches the cleared shape after the user effect runs. -/
theorem unauthorized_clears_session_and_feed_witness :
    clearedState (runUserEffect (fetchPosts sampleState (.error (.withStatus 401))).1 (.ok [])).1 ∧
    clearedState (runUserEffect (handleCommentSubmit sampleState 1 (.error (.withStatus 401))).1 (.ok [])).1 ∧
    clearedState (runUserEffect (handleCommentUpdate sampleState 1 100 (.error (.withStatus 401))).1 (.ok [])).1 ∧
    clearedState (runUserEffect (handleCommentDelete sampleState 1 100 (.error (.withStatus 401))).1 (.ok [])).1 ∧
    clearedState (runUserEffect (handleReaction sampleState 1 "LIKE" (.error (.withStatus 401))).1 (.ok [])).1 ∧
    clearedState (runUserEffect (handleFollowPost sampleState 1 (.num 10) (.error (.withStatus 401))).1 (.ok [])).1 :=
  have h := unauthorized_clears_session_and_feed sampleState (.withStatus 401) (by decide)
    1 100 (.num 10) "LIKE" (.ok [])
  ⟨h.1 (by decide), h.2.1 (by decide), h.2.2.1 (by decide), h.2.2.2.1 (by decide),
   h.2.2.2.2.1 (by decide), h.2.2.2.2.2 (by decide)⟩

end SkillShare
